import Mathlib

/-!
# `webrtc::ConnectionContext` (pc/connection_context.h)

A shallow embedding of the class declared in `pc/connection_context.h`: its data members, the
accessors the header defines inline, and the effect the member functions it only declares can have
on an object given the `const` qualifiers of the data members.

* A thread is identified with the value of its `rtc::Thread*`; the thread a call executes on is an
  explicit argument `current` of every member function.
* A call either returns a value or ends in the fatal assertion of a failed thread check.
* The data members keep the names and the order of the header (lines 86-115).
-/

namespace webrtc

/-- Identity of an `rtc::Thread` object: the value of an `rtc::Thread*`. -/
abbrev Thread := Nat

/-- The value `p.get()` of a `std::unique_ptr` member `p`: `none` is the null pointer, `some a`
the address of the object it owns. -/
abbrev Ptr := Option Nat

/-- A value of `PeerConnectionFactoryInterface::Options`. The type is declared in
`api/peer_connection_interface.h`, which the header only includes; its values are kept abstract. -/
abbrev Options := Nat

/-- Identity of the `WebRtcKeyValueConfig` object a reference returned by `trials()` designates. -/
abbrev WebRtcKeyValueConfig := Nat

/-- Outcome of a call: it returns a value, or it ends in the fatal assertion. -/
inductive Checked (α : Type) where
  | returned (value : α)
  | fatal
  deriving DecidableEq, Repr

/-- Sequencing of calls: a fatal assertion ends the enclosing call as well. -/
def Checked.bind {α β : Type} (x : Checked α) (f : α → Checked β) : Checked β :=
  match x with
  | .returned a => f a
  | .fatal => .fatal

instance : Monad Checked where
  pure := Checked.returned
  bind := Checked.bind

/-- Modelled from the spec: the checking statement `RTC_DCHECK_RUN_ON(thread)`, whose definition is
outside the header. Section 4.3: the accessor "first asserts the caller is executing on that
subsystem's owning thread; violating this assertion is a fatal programming-error signal". -/
def RTC_DCHECK_RUN_ON (current thread : Thread) : Checked Unit :=
  if current = thread then .returned () else .fatal

/-- The data members of `ConnectionContext`, header lines 86-115, in declaration order.
`network_thread_`, `worker_thread_`, `signaling_thread_`, `network_monitor_factory_`,
`call_factory_` and `trials_` are declared `const`. `trials_` is dereferenced unconditionally by
`trials()`, so it is held as the object it points to. -/
structure ConnectionContext where
  wraps_current_thread_ : Bool
  owned_network_thread_ : Option Thread
  owned_worker_thread_ : Option Thread
  network_thread_ : Thread
  worker_thread_ : Thread
  signaling_thread_ : Thread
  options_ : Options
  channel_manager_ : Ptr
  network_monitor_factory_ : Ptr
  default_network_manager_ : Ptr
  call_factory_ : Ptr
  default_socket_factory_ : Ptr
  media_engine_ : Ptr
  sctp_factory_ : Ptr
  trials_ : WebRtcKeyValueConfig
  deriving DecidableEq, Repr

namespace ConnectionContext

/-! ## Accessors defined in the header -/

/-- Line 54: `rtc::Thread* signaling_thread() const { return signaling_thread_; }`. -/
def signaling_thread (ctx : ConnectionContext) (_current : Thread) : Checked Thread :=
  return ctx.signaling_thread_

/-- Line 55: `rtc::Thread* worker_thread() const { return worker_thread_; }`. -/
def worker_thread (ctx : ConnectionContext) (_current : Thread) : Checked Thread :=
  return ctx.worker_thread_

/-- Line 56: `rtc::Thread* network_thread() const { return network_thread_; }`. -/
def network_thread (ctx : ConnectionContext) (_current : Thread) : Checked Thread :=
  return ctx.network_thread_

/-- Lines 47-50: checks the signaling thread, then returns `sctp_factory_.get()`. -/
def sctp_transport_factory (ctx : ConnectionContext) (current : Thread) : Checked Ptr := do
  RTC_DCHECK_RUN_ON current (← ctx.signaling_thread current)
  return ctx.sctp_factory_

/-- Lines 58-60: `options() const { return options_; }`, with no thread check. -/
def options (ctx : ConnectionContext) (_current : Thread) : Checked Options :=
  return ctx.options_

/-- Line 62: `trials() const { return *trials_.get(); }`. -/
def trials (ctx : ConnectionContext) (_current : Thread) : Checked WebRtcKeyValueConfig :=
  return ctx.trials_

/-- Lines 65-68: checks the signaling thread, then returns `default_network_manager_.get()`. -/
def default_network_manager (ctx : ConnectionContext) (current : Thread) : Checked Ptr := do
  RTC_DCHECK_RUN_ON current (← ctx.signaling_thread current)
  return ctx.default_network_manager_

/-- Lines 69-72: checks the signaling thread, then returns `default_socket_factory_.get()`. -/
def default_socket_factory (ctx : ConnectionContext) (current : Thread) : Checked Ptr := do
  RTC_DCHECK_RUN_ON current (← ctx.signaling_thread current)
  return ctx.default_socket_factory_

/-- Lines 73-76: checks the worker thread, then returns `call_factory_.get()`. -/
def call_factory (ctx : ConnectionContext) (current : Thread) : Checked Ptr := do
  RTC_DCHECK_RUN_ON current (← ctx.worker_thread current)
  return ctx.call_factory_

/-- Modelled from the spec: the body of `channel_manager()`, which the header only declares
(line 52). Section 6 lists `channel_manager()` among the accessors "each affinity-gated as in
§4.3", and section 4.2 calls the channel manager "signaling-thread-affine". -/
def channel_manager (ctx : ConnectionContext) (current : Thread) : Checked Ptr := do
  RTC_DCHECK_RUN_ON current (← ctx.signaling_thread current)
  return ctx.channel_manager_

/-! ## Member functions and `const` data members

The header declares `SetOptions`, `Initialize` and the constructor without defining them. What the
header does fix is which data members such a function can assign: every member except the six
declared `const`. A non-const member function is therefore run on a body that yields new values
for the non-const members only, and a `const` member function on one that yields a result only
(no data member is declared `mutable`). -/

/-- The data members not declared `const`, in declaration order. -/
structure NonConstMembers where
  wraps_current_thread_ : Bool
  owned_network_thread_ : Option Thread
  owned_worker_thread_ : Option Thread
  options_ : Options
  channel_manager_ : Ptr
  default_network_manager_ : Ptr
  default_socket_factory_ : Ptr
  media_engine_ : Ptr
  sctp_factory_ : Ptr
  deriving DecidableEq, Repr

/-- The non-const data members of an object. -/
def nonConstMembers (ctx : ConnectionContext) : NonConstMembers :=
  { wraps_current_thread_ := ctx.wraps_current_thread_
    owned_network_thread_ := ctx.owned_network_thread_
    owned_worker_thread_ := ctx.owned_worker_thread_
    options_ := ctx.options_
    channel_manager_ := ctx.channel_manager_
    default_network_manager_ := ctx.default_network_manager_
    default_socket_factory_ := ctx.default_socket_factory_
    media_engine_ := ctx.media_engine_
    sctp_factory_ := ctx.sctp_factory_ }

/-- The object once a member function has left `m` in its non-const data members. The `const`
members (`network_thread_`, `worker_thread_`, `signaling_thread_`, `network_monitor_factory_`,
`call_factory_`, `trials_`) keep the values the constructor gave them. -/
def assign (ctx : ConnectionContext) (m : NonConstMembers) : ConnectionContext :=
  { ctx with
    wraps_current_thread_ := m.wraps_current_thread_
    owned_network_thread_ := m.owned_network_thread_
    owned_worker_thread_ := m.owned_worker_thread_
    options_ := m.options_
    channel_manager_ := m.channel_manager_
    default_network_manager_ := m.default_network_manager_
    default_socket_factory_ := m.default_socket_factory_
    media_engine_ := m.media_engine_
    sctp_factory_ := m.sctp_factory_ }

/-- A body for a non-const member function returning `ρ`: from the object and the executing
thread, the values it leaves in the non-const data members and its outcome. -/
abbrev MemberBody (ρ : Type) := ConnectionContext → Thread → NonConstMembers × Checked ρ

/-- A body for a `const` member function returning `ρ`: its outcome. -/
abbrev ConstMemberBody (ρ : Type) := ConnectionContext → Thread → Checked ρ

/-- A call of a `const` member function: the object after the call and the outcome. -/
def callConst {ρ : Type} (body : ConstMemberBody ρ) (ctx : ConnectionContext) (current : Thread) :
    ConnectionContext × Checked ρ :=
  (ctx, body ctx current)

/-- Line 42: `void SetOptions(const PeerConnectionFactoryInterface::Options& options);`, run on a
given body: the object after the call and the outcome. -/
def SetOptions (body : Options → MemberBody Unit) (ctx : ConnectionContext) (options : Options)
    (current : Thread) : ConnectionContext × Checked Unit :=
  (ctx.assign (body options ctx current).1, (body options ctx current).2)

/-- Line 44: `bool Initialize();`, run on a given body: the object after the call and the
outcome. -/
def Initialize (body : MemberBody Bool) (ctx : ConnectionContext) (current : Thread) :
    ConnectionContext × Checked Bool :=
  (ctx.assign (body ctx current).1, (body ctx current).2)

/-- The bodies of the public member functions that the header declares without defining. -/
structure Bodies where
  SetOptions : Options → MemberBody Unit
  Initialize : MemberBody Bool
  channel_manager : ConstMemberBody Ptr

/-- A call on the public surface of the class (header lines 42-76). -/
inductive Call where
  | SetOptions (options : Options)
  | Initialize
  | sctp_transport_factory
  | channel_manager
  | signaling_thread
  | worker_thread
  | network_thread
  | options
  | trials
  | default_network_manager
  | default_socket_factory
  | call_factory
  deriving DecidableEq, Repr

/-- The object after one public call executed on thread `current`. -/
def step (b : Bodies) (ctx : ConnectionContext) (current : Thread) : Call → ConnectionContext
  | .SetOptions o => (ctx.SetOptions b.SetOptions o current).1
  | .Initialize => (ctx.Initialize b.Initialize current).1
  | .sctp_transport_factory => (callConst sctp_transport_factory ctx current).1
  | .channel_manager => (callConst b.channel_manager ctx current).1
  | .signaling_thread => (callConst signaling_thread ctx current).1
  | .worker_thread => (callConst worker_thread ctx current).1
  | .network_thread => (callConst network_thread ctx current).1
  | .options => (callConst options ctx current).1
  | .trials => (callConst trials ctx current).1
  | .default_network_manager => (callConst default_network_manager ctx current).1
  | .default_socket_factory => (callConst default_socket_factory ctx current).1
  | .call_factory => (callConst call_factory ctx current).1

/-- The object after a sequence of public calls, each with the thread it executes on. -/
def run (b : Bodies) (ctx : ConnectionContext) : List (Thread × Call) → ConnectionContext
  | [] => ctx
  | (current, call) :: rest => run b (step b ctx current call) rest

end ConnectionContext

/-! ## Construction -/

/-- Modelled from the spec: `PeerConnectionFactoryDependencies`, declared outside the header, with
the fields section 6 recognises; the signaling thread is implicit (the caller). -/
structure PeerConnectionFactoryDependencies where
  worker_thread : Option Thread
  network_thread : Option Thread
  network_manager : Ptr
  socket_factory : Ptr
  call_factory : Ptr
  media_engine : Ptr
  transport_factory : Ptr
  options : Option Options
  trials : Option WebRtcKeyValueConfig
  deriving DecidableEq, Repr

/-- Modelled from the spec: what construction obtains besides the bundle (sections 4.1, 4.2): the
handles `create_owned` yields for the network and the worker role, and the options and trials
snapshot used when the bundle leaves them unspecified. -/
structure ConstructionDefaults where
  created_network_thread : Thread
  created_worker_thread : Thread
  options : Options
  trials : WebRtcKeyValueConfig
  deriving DecidableEq, Repr

/-- Modelled from the spec: the constructor, which the header only declares (line 81).
Section 4.2, phase 1: it "runs synchronously on the calling thread, which becomes the fixed
signaling thread thereafter"; a supplied worker or network handle is borrowed, otherwise an owned
thread is created and the plain reference aliases it; options are "defaulted if unspecified", the
trials snapshot is "copied once"; no subsystem is constructed. `Initialize` takes no argument
(line 44), so what the bundle injects is held by the object from here on. -/
def ConnectionContext.construct (dependencies : PeerConnectionFactoryDependencies)
    (current : Thread) (env : ConstructionDefaults) : ConnectionContext :=
  { wraps_current_thread_ := true
    owned_network_thread_ :=
      match dependencies.network_thread with
      | some _ => none
      | none => some env.created_network_thread
    owned_worker_thread_ :=
      match dependencies.worker_thread with
      | some _ => none
      | none => some env.created_worker_thread
    network_thread_ := dependencies.network_thread.getD env.created_network_thread
    worker_thread_ := dependencies.worker_thread.getD env.created_worker_thread
    signaling_thread_ := current
    options_ := dependencies.options.getD env.options
    channel_manager_ := none
    network_monitor_factory_ := none
    default_network_manager_ := none
    call_factory_ := dependencies.call_factory
    default_socket_factory_ := none
    media_engine_ := dependencies.media_engine
    sctp_factory_ := dependencies.transport_factory
    trials_ := dependencies.trials.getD env.trials }

/-! ## Concrete objects -/

/-- An initialised object with three distinct threads (network 1, worker 2, signaling 3) and every
subsystem present. -/
def exampleContext : ConnectionContext :=
  { wraps_current_thread_ := false
    owned_network_thread_ := some 1
    owned_worker_thread_ := some 2
    network_thread_ := 1
    worker_thread_ := 2
    signaling_thread_ := 3
    options_ := 7
    channel_manager_ := some 10
    network_monitor_factory_ := none
    default_network_manager_ := some 11
    call_factory_ := some 12
    default_socket_factory_ := some 13
    media_engine_ := some 14
    sctp_factory_ := some 15
    trials_ := 16 }

/-- An object as it stands before `Initialize`, holding no call factory: threads as in
`exampleContext`, every subsystem pointer null. -/
def uninitializedContext : ConnectionContext :=
  { wraps_current_thread_ := false
    owned_network_thread_ := some 1
    owned_worker_thread_ := some 2
    network_thread_ := 1
    worker_thread_ := 2
    signaling_thread_ := 3
    options_ := 7
    channel_manager_ := none
    network_monitor_factory_ := none
    default_network_manager_ := none
    call_factory_ := none
    default_socket_factory_ := none
    media_engine_ := none
    sctp_factory_ := none
    trials_ := 16 }

/-- A bundle with no overrides. -/
def noOverrides : PeerConnectionFactoryDependencies :=
  { worker_thread := none, network_thread := none, network_manager := none, socket_factory := none,
    call_factory := none, media_engine := none, transport_factory := none, options := none,
    trials := none }

/-! ## Accessor bodies as statements on the object

To state what a call does to the object, the body of each inline accessor is also translated
statement by statement into a computation that threads the object through: a statement may read a
data member, assign the non-const data members, or check the executing thread. Whether a body
leaves the object alone then depends on the statements it consists of. -/

/-- A member function body as a computation: from the object and the executing thread, the object
it leaves and its outcome. -/
def Exec (ρ : Type) : Type := ConnectionContext → Thread → ConnectionContext × Checked ρ

namespace Exec

/-- Statement `return v;`. -/
def ret {ρ : Type} (v : ρ) : Exec ρ := fun ctx _ => (ctx, .returned v)

/-- Statement sequencing: the second statement runs on the object the first one left; a fatal
assertion ends the body and leaves the object as it was at that point. -/
def seq {α β : Type} (x : Exec α) (f : α → Exec β) : Exec β := fun ctx current =>
  match x ctx current with
  | (ctx1, .returned a) => f a ctx1 current
  | (ctx1, .fatal) => (ctx1, .fatal)

instance : Monad Exec where
  pure := ret
  bind := seq

/-- Reading a data member (or `p.get()` of a `std::unique_ptr` member). -/
def member {ρ : Type} (read : ConnectionContext → ρ) : Exec ρ := fun ctx _ =>
  (ctx, .returned (read ctx))

/-- Assigning non-const data members. -/
def store (write : ConnectionContext → ConnectionContext.NonConstMembers) : Exec Unit := fun ctx _ =>
  (ctx.assign (write ctx), .returned ())

/-- The statement `RTC_DCHECK_RUN_ON(thread);`. -/
def RTC_DCHECK_RUN_ON (thread : Thread) : Exec Unit := fun ctx current =>
  (ctx, webrtc.RTC_DCHECK_RUN_ON current thread)

end Exec

namespace ConnectionContext.Body

/-- Line 54: `{ return signaling_thread_; }`. -/
def signaling_thread : Exec Thread :=
  Exec.member fun ctx => ctx.signaling_thread_

/-- Line 55: `{ return worker_thread_; }`. -/
def worker_thread : Exec Thread :=
  Exec.member fun ctx => ctx.worker_thread_

/-- Line 56: `{ return network_thread_; }`. -/
def network_thread : Exec Thread :=
  Exec.member fun ctx => ctx.network_thread_

/-- Lines 47-50: `RTC_DCHECK_RUN_ON(signaling_thread()); return sctp_factory_.get();`. -/
def sctp_transport_factory : Exec Ptr := do
  Exec.RTC_DCHECK_RUN_ON (← signaling_thread)
  Exec.member fun ctx => ctx.sctp_factory_

/-- Lines 58-60: `{ return options_; }`. -/
def options : Exec Options :=
  Exec.member fun ctx => ctx.options_

/-- Line 62: `{ return *trials_.get(); }`. -/
def trials : Exec WebRtcKeyValueConfig :=
  Exec.member fun ctx => ctx.trials_

/-- Lines 65-68: `RTC_DCHECK_RUN_ON(signaling_thread()); return default_network_manager_.get();`. -/
def default_network_manager : Exec Ptr := do
  Exec.RTC_DCHECK_RUN_ON (← signaling_thread)
  Exec.member fun ctx => ctx.default_network_manager_

/-- Lines 69-72: `RTC_DCHECK_RUN_ON(signaling_thread()); return default_socket_factory_.get();`. -/
def default_socket_factory : Exec Ptr := do
  Exec.RTC_DCHECK_RUN_ON (← signaling_thread)
  Exec.member fun ctx => ctx.default_socket_factory_

/-- Lines 73-76: `RTC_DCHECK_RUN_ON(worker_thread()); return call_factory_.get();`. -/
def call_factory : Exec Ptr := do
  Exec.RTC_DCHECK_RUN_ON (← worker_thread)
  Exec.member fun ctx => ctx.call_factory_

/-- Modelled from the spec: the body of `SetOptions`, which the header only declares (line 42).
Sections 3 and 5: the options record is "the one field mutated after construction", and mutation
"is restricted to the signaling thread by convention enforced through the affinity assertion". -/
def SetOptions (options : Options) : Exec Unit := do
  Exec.RTC_DCHECK_RUN_ON (← signaling_thread)
  Exec.store fun ctx => { ctx.nonConstMembers with options_ := options }

end ConnectionContext.Body

/-- A body is a read-only accessor when, on every object and every executing thread, (1) the object
it leaves is the object it was called on, every data member included, whether it returns or ends
in the fatal assertion, (2) a second call from the same thread, made on the object the first call
left, has the outcome of the first, and (3) its outcome is the one `accessor` computes. -/
def ReadOnlyAccessor {ρ : Type} (body : Exec ρ) (accessor : ConnectionContext.ConstMemberBody ρ) :
    Prop :=
  ∀ (ctx : ConnectionContext) (current : Thread),
    (body ctx current).1 = ctx ∧
    (body (body ctx current).1 current).2 = (body ctx current).2 ∧
    (body ctx current).2 = accessor ctx current

/-! ## Thread checks -/

namespace ConnectionContext

theorem check_then_return {α : Type} (current thread : Thread) (v : α) :
    (do RTC_DCHECK_RUN_ON current thread; return v : Checked α) =
      if current = thread then Checked.returned v else Checked.fatal := by
  by_cases h : current = thread <;>
    simp [RTC_DCHECK_RUN_ON, h, Bind.bind, Checked.bind, Pure.pure]

theorem sctp_transport_factory_eq (ctx : ConnectionContext) (current : Thread) :
    ctx.sctp_transport_factory current =
      if current = ctx.signaling_thread_ then .returned ctx.sctp_factory_ else .fatal :=
  check_then_return current ctx.signaling_thread_ ctx.sctp_factory_

theorem default_network_manager_eq (ctx : ConnectionContext) (current : Thread) :
    ctx.default_network_manager current =
      if current = ctx.signaling_thread_ then .returned ctx.default_network_manager_
      else .fatal :=
  check_then_return current ctx.signaling_thread_ ctx.default_network_manager_

theorem default_socket_factory_eq (ctx : ConnectionContext) (current : Thread) :
    ctx.default_socket_factory current =
      if current = ctx.signaling_thread_ then .returned ctx.default_socket_factory_
      else .fatal :=
  check_then_return current ctx.signaling_thread_ ctx.default_socket_factory_

theorem call_factory_eq (ctx : ConnectionContext) (current : Thread) :
    ctx.call_factory current =
      if current = ctx.worker_thread_ then .returned ctx.call_factory_ else .fatal :=
  check_then_return current ctx.worker_thread_ ctx.call_factory_

theorem channel_manager_eq (ctx : ConnectionContext) (current : Thread) :
    ctx.channel_manager current =
      if current = ctx.signaling_thread_ then .returned ctx.channel_manager_ else .fatal :=
  check_then_return current ctx.signaling_thread_ ctx.channel_manager_

/-- C1: `call_factory()` returns the stored call factory when the caller runs on the context's
worker thread and ends in the fatal assertion when it runs on any other thread; in particular, in
a context whose worker thread differs from its signaling thread, `call_factory()` called on the
signaling thread ends in the fatal assertion. -/
theorem call_factory_gated_to_worker_thread (ctx : ConnectionContext) (current : Thread) :
    (current = ctx.worker_thread_ → ctx.call_factory current = .returned ctx.call_factory_) ∧
    (current ≠ ctx.worker_thread_ → ctx.call_factory current = .fatal) ∧
    (ctx.worker_thread_ ≠ ctx.signaling_thread_ →
      ctx.call_factory ctx.signaling_thread_ = .fatal) := by
  refine ⟨fun h => ?_, fun h => ?_, fun h => ?_⟩
  · rw [call_factory_eq, if_pos h]
  · rw [call_factory_eq, if_neg h]
  · rw [call_factory_eq, if_neg (Ne.symm h)]

/-- Scenario A of the spec on `exampleContext`: on the worker thread (2) `call_factory()` returns
the call factory, on the network thread (1) and on the signaling thread (3) it is fatal. -/
theorem call_factory_gated_to_worker_thread_witness :
    exampleContext.call_factory 2 = .returned (some 12) ∧
    exampleContext.call_factory 1 = .fatal ∧
    exampleContext.call_factory 3 = .fatal :=
  ⟨(call_factory_gated_to_worker_thread exampleContext 2).1 rfl,
   (call_factory_gated_to_worker_thread exampleContext 1).2.1 (by decide),
   (call_factory_gated_to_worker_thread exampleContext 3).2.2 (by decide)⟩

/-- C2: each of `sctp_transport_factory()`, `default_network_manager()` and
`default_socket_factory()` returns the stored `sctp_factory_`, `default_network_manager_`,
`default_socket_factory_` if and only if the caller runs on the context's signaling thread, and
ends in the fatal assertion, returning no value, on every other thread. -/
theorem signaling_gated_accessors (ctx : ConnectionContext) (current : Thread) :
    ((ctx.sctp_transport_factory current = .returned ctx.sctp_factory_ ↔
        current = ctx.signaling_thread_) ∧
      (current ≠ ctx.signaling_thread_ → ctx.sctp_transport_factory current = .fatal)) ∧
    ((ctx.default_network_manager current = .returned ctx.default_network_manager_ ↔
        current = ctx.signaling_thread_) ∧
      (current ≠ ctx.signaling_thread_ → ctx.default_network_manager current = .fatal)) ∧
    ((ctx.default_socket_factory current = .returned ctx.default_socket_factory_ ↔
        current = ctx.signaling_thread_) ∧
      (current ≠ ctx.signaling_thread_ → ctx.default_socket_factory current = .fatal)) := by
  rw [sctp_transport_factory_eq, default_network_manager_eq, default_socket_factory_eq]
  by_cases h : current = ctx.signaling_thread_ <;> simp [h]

/-- On `exampleContext` the three accessors return their subsystem on the signaling thread (3) and
are fatal on the worker thread (2). -/
theorem signaling_gated_accessors_witness :
    (exampleContext.sctp_transport_factory 3 = .returned (some 15) ∧
      exampleContext.default_network_manager 3 = .returned (some 11) ∧
      exampleContext.default_socket_factory 3 = .returned (some 13)) ∧
    (exampleContext.sctp_transport_factory 2 = .fatal ∧
      exampleContext.default_network_manager 2 = .fatal ∧
      exampleContext.default_socket_factory 2 = .fatal) :=
  have h3 := signaling_gated_accessors exampleContext 3
  have h2 := signaling_gated_accessors exampleContext 2
  ⟨⟨h3.1.1.2 rfl, h3.2.1.1.2 rfl, h3.2.2.1.2 rfl⟩,
   ⟨h2.1.2 (by decide), h2.2.1.2 (by decide), h2.2.2.2 (by decide)⟩⟩

/-- C3, evaluated on the code: in `exampleContext`, whose worker thread (2) differs from its
signaling thread (3), `options()` called on the worker thread or on the network thread returns the
options record; no fatal assertion is taken. -/
theorem options_returns_off_signaling_thread :
    exampleContext.worker_thread_ ≠ exampleContext.signaling_thread_ ∧
    exampleContext.options exampleContext.worker_thread_ = .returned exampleContext.options_ ∧
    exampleContext.options exampleContext.network_thread_ = .returned exampleContext.options_ ∧
    exampleContext.options exampleContext.worker_thread_ ≠ .fatal := by
  decide

/-- C4: `channel_manager()` called on the signaling thread returns the stored channel manager, and
called on any other thread, the worker thread included when it differs from the signaling thread,
ends in the fatal assertion. -/
theorem channel_manager_gated_to_signaling_thread (ctx : ConnectionContext) (current : Thread) :
    (current = ctx.signaling_thread_ →
      ctx.channel_manager current = .returned ctx.channel_manager_) ∧
    (current ≠ ctx.signaling_thread_ → ctx.channel_manager current = .fatal) ∧
    (ctx.worker_thread_ ≠ ctx.signaling_thread_ →
      ctx.channel_manager ctx.worker_thread_ = .fatal) := by
  refine ⟨fun h => ?_, fun h => ?_, fun h => ?_⟩
  · rw [channel_manager_eq, if_pos h]
  · rw [channel_manager_eq, if_neg h]
  · rw [channel_manager_eq, if_neg h]

/-- On `exampleContext`, `channel_manager()` returns the channel manager on the signaling thread
(3) and is fatal on the network thread (1) and on the worker thread (2). -/
theorem channel_manager_gated_to_signaling_thread_witness :
    exampleContext.channel_manager 3 = .returned (some 10) ∧
    exampleContext.channel_manager 1 = .fatal ∧
    exampleContext.channel_manager 2 = .fatal :=
  ⟨(channel_manager_gated_to_signaling_thread exampleContext 3).1 rfl,
   (channel_manager_gated_to_signaling_thread exampleContext 1).2.1 (by decide),
   (channel_manager_gated_to_signaling_thread exampleContext 2).2.2 (by decide)⟩

/-- C5: on every calling thread, `signaling_thread()`, `worker_thread()`, `network_thread()` and
`trials()` return the stored `signaling_thread_`, `worker_thread_`, `network_thread_` and trials
snapshot; none of them ends in the fatal assertion. -/
theorem ungated_accessors_return_stored (ctx : ConnectionContext) (current : Thread) :
    ctx.signaling_thread current = .returned ctx.signaling_thread_ ∧
    ctx.worker_thread current = .returned ctx.worker_thread_ ∧
    ctx.network_thread current = .returned ctx.network_thread_ ∧
    ctx.trials current = .returned ctx.trials_ :=
  ⟨rfl, rfl, rfl, rfl⟩

/-! ## Construction and the `const` data members -/

/-- C6: for every dependency bundle (valid ones included) and every constructing thread, the
context the constructor produces has `signaling_thread()` equal to the thread that invoked the
constructor, whichever thread later asks. -/
theorem construct_signaling_thread (dependencies : PeerConnectionFactoryDependencies)
    (current : Thread) (env : ConstructionDefaults) (asking : Thread) :
    (construct dependencies current env).signaling_thread asking = .returned current :=
  rfl

theorem assign_const_members (ctx : ConnectionContext) (m : NonConstMembers) :
    (ctx.assign m).network_thread_ = ctx.network_thread_ ∧
    (ctx.assign m).worker_thread_ = ctx.worker_thread_ ∧
    (ctx.assign m).signaling_thread_ = ctx.signaling_thread_ ∧
    (ctx.assign m).network_monitor_factory_ = ctx.network_monitor_factory_ ∧
    (ctx.assign m).call_factory_ = ctx.call_factory_ ∧
    (ctx.assign m).trials_ = ctx.trials_ :=
  ⟨rfl, rfl, rfl, rfl, rfl, rfl⟩

theorem step_const_members (b : Bodies) (ctx : ConnectionContext) (current : Thread)
    (call : Call) :
    (ctx.step b current call).network_thread_ = ctx.network_thread_ ∧
    (ctx.step b current call).worker_thread_ = ctx.worker_thread_ ∧
    (ctx.step b current call).signaling_thread_ = ctx.signaling_thread_ ∧
    (ctx.step b current call).network_monitor_factory_ = ctx.network_monitor_factory_ ∧
    (ctx.step b current call).call_factory_ = ctx.call_factory_ ∧
    (ctx.step b current call).trials_ = ctx.trials_ := by
  cases call
  case SetOptions o => exact assign_const_members ctx _
  case Initialize => exact assign_const_members ctx _
  all_goals exact ⟨rfl, rfl, rfl, rfl, rfl, rfl⟩

theorem run_const_members (b : Bodies) (calls : List (Thread × Call)) (ctx : ConnectionContext) :
    (ctx.run b calls).network_thread_ = ctx.network_thread_ ∧
    (ctx.run b calls).worker_thread_ = ctx.worker_thread_ ∧
    (ctx.run b calls).signaling_thread_ = ctx.signaling_thread_ ∧
    (ctx.run b calls).network_monitor_factory_ = ctx.network_monitor_factory_ ∧
    (ctx.run b calls).call_factory_ = ctx.call_factory_ ∧
    (ctx.run b calls).trials_ = ctx.trials_ := by
  induction calls generalizing ctx with
  | nil => exact ⟨rfl, rfl, rfl, rfl, rfl, rfl⟩
  | cons head rest ih =>
    obtain ⟨current, call⟩ := head
    have hs := step_const_members b ctx current call
    have hr := ih (ctx.step b current call)
    simp only [run]
    exact ⟨hr.1.trans hs.1, hr.2.1.trans hs.2.1, hr.2.2.1.trans hs.2.2.1,
      hr.2.2.2.1.trans hs.2.2.2.1, hr.2.2.2.2.1.trans hs.2.2.2.2.1,
      hr.2.2.2.2.2.trans hs.2.2.2.2.2⟩

/-- C7: whatever the bodies of `SetOptions`, `Initialize` and `channel_manager()` are, for every
context state, every public call (`SetOptions`, `Initialize`, every accessor) executed on any
thread, and every thread asking afterwards, `signaling_thread()`, `worker_thread()` and
`network_thread()` return after the call what they returned before it. -/
theorem thread_handles_fixed (b : Bodies) (ctx : ConnectionContext) (current : Thread)
    (call : Call) (asking : Thread) :
    (ctx.step b current call).signaling_thread asking = ctx.signaling_thread asking ∧
    (ctx.step b current call).worker_thread asking = ctx.worker_thread asking ∧
    (ctx.step b current call).network_thread asking = ctx.network_thread asking := by
  have h := step_const_members b ctx current call
  simp only [signaling_thread, worker_thread, network_thread, h.1, h.2.1, h.2.2.1, and_self]

/-- C8 as stated fails: on `uninitializedContext`, which holds no call factory, no body of
`Initialize`, on no thread, returns `true` and leaves a stored call factory that differs from the
one before the call, although bodies that return `true` exist. -/
theorem Initialize_never_sets_call_factory :
    uninitializedContext.call_factory_ = none ∧
    (∃ body : MemberBody Bool, ∀ current : Thread,
      (uninitializedContext.Initialize body current).2 = .returned true) ∧
    ¬ ∃ (body : MemberBody Bool) (current : Thread),
      (uninitializedContext.Initialize body current).2 = .returned true ∧
      (uninitializedContext.Initialize body current).1.call_factory_ ≠
        uninitializedContext.call_factory_ := by
  refine ⟨rfl, ⟨fun ctx _ => (ctx.nonConstMembers, .returned true), fun _ => rfl⟩, ?_⟩
  rintro ⟨body, current, -, hne⟩
  exact hne (assign_const_members _ _).2.2.2.2.1

/-- C8, amended: `call_factory_` is a `const` member, fixed by the constructor. For every context
state, every body of `Initialize` and every thread it executes on, the stored call factory after
`Initialize` is the one stored before it, the worker thread that gates it is the same, and
`call_factory()` asked from any thread has the outcome it had before. -/
theorem call_factory_fixed_across_Initialize (body : MemberBody Bool) (ctx : ConnectionContext)
    (current asking : Thread) :
    (ctx.Initialize body current).1.call_factory_ = ctx.call_factory_ ∧
    (ctx.Initialize body current).1.worker_thread_ = ctx.worker_thread_ ∧
    (ctx.Initialize body current).1.call_factory asking = ctx.call_factory asking := by
  have h := assign_const_members ctx (body ctx current).1
  refine ⟨h.2.2.2.2.1, h.2.1, ?_⟩
  rw [call_factory_eq, call_factory_eq]
  simp only [Initialize, h.2.1, h.2.2.2.2.1]

/-- C9: whatever the bodies of the undeclared member functions are, after every sequence of public
calls (`SetOptions`, `Initialize`, any accessor), each executed on any thread, `trials()` asked
from any thread returns the snapshot the context held at the start of the sequence, that is, the
one captured at construction. -/
theorem trials_immutable (b : Bodies) (ctx : ConnectionContext) (calls : List (Thread × Call))
    (asking : Thread) :
    (ctx.run b calls).trials asking = .returned ctx.trials_ ∧
    (ctx.run b calls).trials asking = ctx.trials asking := by
  have h := (run_const_members b calls ctx).2.2.2.2.2
  unfold trials
  rw [h]
  exact ⟨rfl, rfl⟩

theorem Exec.member_run {ρ : Type} (read : ConnectionContext → ρ) (ctx : ConnectionContext)
    (current : Thread) : Exec.member read ctx current = (ctx, .returned (read ctx)) :=
  rfl

theorem Exec.check_then_member {ρ : Type} (thread : ConnectionContext → Thread)
    (read : ConnectionContext → ρ) (ctx : ConnectionContext) (current : Thread) :
    (do Exec.RTC_DCHECK_RUN_ON (← Exec.member thread); Exec.member read : Exec ρ) ctx current =
      (ctx, if current = thread ctx then .returned (read ctx) else .fatal) := by
  by_cases h : current = thread ctx <;>
    simp [Bind.bind, Exec.seq, Exec.member, Exec.RTC_DCHECK_RUN_ON, webrtc.RTC_DCHECK_RUN_ON, h]

theorem readOnlyAccessor_of_run {ρ : Type} (body : Exec ρ) (accessor : ConstMemberBody ρ)
    (h : ∀ ctx current, body ctx current = (ctx, accessor ctx current)) :
    ReadOnlyAccessor body accessor := by
  intro ctx current
  simp only [h, and_self]

/-- The read-only property is a property of the statements of a body: the `SetOptions` body, which
assigns `options_`, does not leave `exampleContext` as it was when run on its signaling thread. -/
theorem Body.SetOptions_changes_object :
    (Body.SetOptions 8 exampleContext 3).1 ≠ exampleContext ∧
    (Body.SetOptions 8 exampleContext 3).1.options_ = 8 ∧
    (Body.SetOptions 8 exampleContext 2).1 = exampleContext := by
  decide

/-- C10: each of the nine accessors the header defines is read-only. Run statement by statement on
any context state from any calling thread, the body of `sctp_transport_factory()`,
`signaling_thread()`, `worker_thread()`, `network_thread()`, `options()`, `trials()`,
`default_network_manager()`, `default_socket_factory()` and `call_factory()` leaves every data
member of the context unchanged, whether it returns a value or ends in the fatal assertion; a
second call from the same thread has the same outcome; and the outcome is the accessor's. -/
theorem accessors_read_only :
    ReadOnlyAccessor Body.sctp_transport_factory sctp_transport_factory ∧
    ReadOnlyAccessor Body.signaling_thread signaling_thread ∧
    ReadOnlyAccessor Body.worker_thread worker_thread ∧
    ReadOnlyAccessor Body.network_thread network_thread ∧
    ReadOnlyAccessor Body.options options ∧
    ReadOnlyAccessor Body.trials trials ∧
    ReadOnlyAccessor Body.default_network_manager default_network_manager ∧
    ReadOnlyAccessor Body.default_socket_factory default_socket_factory ∧
    ReadOnlyAccessor Body.call_factory call_factory := by
  refine ⟨?_, ?_, ?_, ?_, ?_, ?_, ?_, ?_, ?_⟩
  · refine readOnlyAccessor_of_run _ _ fun ctx current => ?_
    rw [sctp_transport_factory_eq]
    exact Exec.check_then_member _ _ ctx current
  · exact readOnlyAccessor_of_run _ _ fun _ _ => rfl
  · exact readOnlyAccessor_of_run _ _ fun _ _ => rfl
  · exact readOnlyAccessor_of_run _ _ fun _ _ => rfl
  · exact readOnlyAccessor_of_run _ _ fun _ _ => rfl
  · exact readOnlyAccessor_of_run _ _ fun _ _ => rfl
  · refine readOnlyAccessor_of_run _ _ fun ctx current => ?_
    rw [default_network_manager_eq]
    exact Exec.check_then_member _ _ ctx current
  · refine readOnlyAccessor_of_run _ _ fun ctx current => ?_
    rw [default_socket_factory_eq]
    exact Exec.check_then_member _ _ ctx current
  · refine readOnlyAccessor_of_run _ _ fun ctx current => ?_
    rw [call_factory_eq]
    exact Exec.check_then_member _ _ ctx current

end ConnectionContext

end webrtc
